import Mathlib

/-!
Shallow embedding of the `pdf_scrapper` repository (Python) in Lean 4.

Files embedded:
* `final_pdf_scraper.py` — text-path table extraction (`extract_all_table_data`,
  `extract_event_date`, `extract_from_text`), the CSV/exit control flow of
  `process_folder` / `save_to_csv` / `main`.
* `pdf_scraper.py` — the table-row mapper (`identify_field_columns`,
  `extract_record_from_row`, `process_table`).
* `tfrrs_scraper.py` — the combined CSV sink (`save_combined_csv`).

Python strings are modelled as `List Char`; file-level APIs take `String`.
The handful of concrete regular expressions used by the code are embedded by a
small backtracking matcher (`matchAtoms`) over sequences of character-class
atoms with greedy bounded repetition and literal alternation, which covers
exactly the constructs appearing in the source patterns and mirrors Python's
leftmost / greedy / first-alternative match order.
-/

namespace PdfScrapper

/-- Python whitespace characters, as used by `str.strip()` and `\s`. -/
def pyWsChar (c : Char) : Bool :=
  c = ' ' || c = '\t' || c = '\n' || c = '\r' || c = '\x0b' || c = '\x0c'

/-- Python `str.strip()` on a character list. -/
def pyStrip (l : List Char) : List Char :=
  ((l.dropWhile pyWsChar).reverse.dropWhile pyWsChar).reverse

/-- Python `text.split('\n')` (keeps empty pieces, `"" → [""]`). -/
def pySplitNl : List Char → List (List Char)
  | [] => [[]]
  | c :: cs =>
    if c = '\n' then [] :: pySplitNl cs
    else
      match pySplitNl cs with
      | [] => [[c]]
      | h :: t => (c :: h) :: t

/-- Worker for `re.split(r'\s+', s)`: `sep` records that we are inside a
whitespace separator run (in which case `cur` is empty). -/
def splitWsGo (sep : Bool) (cur : List Char) : List Char → List (List Char)
  | [] => [cur.reverse]
  | c :: cs =>
    if pyWsChar c then
      if sep then splitWsGo true [] cs
      else cur.reverse :: splitWsGo true [] cs
    else splitWsGo false (c :: cur) cs

/-- Python `re.split(r'\s+', s)`. -/
def splitWs (l : List Char) : List (List Char) :=
  splitWsGo false [] l

/-- Python `str.isdigit()` (ASCII digits). -/
def pyIsDigit (l : List Char) : Bool :=
  !l.isEmpty && l.all Char.isDigit

/-- Python `int(s)` on a digit string. -/
def natOfDigits (l : List Char) : Nat :=
  l.foldl (fun a c => a * 10 + (c.toNat - 48)) 0

/-- Python substring containment `needle in hay`. -/
def hasSub (hay needle : List Char) : Bool :=
  match hay with
  | [] => needle.isEmpty
  | _ :: t => needle.isPrefixOf hay || hasSub t needle

/-- Python `str.upper()` (ASCII). -/
def pyUpper (l : List Char) : List Char :=
  l.map Char.toUpper

/-- Character classes occurring in the source regular expressions. -/
inductive CharCls where
  | digit      -- \d
  | alpha      -- [A-Za-z]
  | ws         -- \s
  | upperOrWs  -- [A-Z\s]
  | colonDot   -- [:.]
  | one (c : Char)  -- a literal character
  deriving Repr, DecidableEq

def clsMatch : CharCls → Char → Bool
  | .digit, c => c.isDigit
  | .alpha, c => ('A' ≤ c && c ≤ 'Z') || ('a' ≤ c && c ≤ 'z')
  | .ws, c => pyWsChar c
  | .upperOrWs, c => ('A' ≤ c && c ≤ 'Z') || pyWsChar c
  | .colonDot, c => c = ':' || c = '.'
  | .one d, c => c = d

/-- A regex atom: a character class with a greedy `{lo,hi}` repetition
(`hi = none` means unbounded), or an alternation of literal words. -/
inductive RAtom where
  | cls (c : CharCls) (lo : Nat) (hi : Option Nat)
  | alt (ws : List (List Char))
  deriving Repr

/-- The ways a repeated class can consume from `s`, greedy-first:
longest take first, down to `lo`. Each entry is (consumed, rest). -/
def clsOptions (c : CharCls) (lo : Nat) (hi : Option Nat) (s : List Char) :
    List (List Char × List Char) :=
  let maxTake := match hi with | none => s.length | some h => min h s.length
  let run := (s.takeWhile (clsMatch c)).length
  let k := min run maxTake
  (List.range (k + 1)).reverse.filterMap fun n =>
    if lo ≤ n then some (s.take n, s.drop n) else none

/-- The ways an alternation of literal words can consume from `s`,
in alternative order. -/
def altOptions (ws : List (List Char)) (s : List Char) :
    List (List Char × List Char) :=
  ws.filterMap fun w =>
    if w.isPrefixOf s then some (w, s.drop w.length) else none

def atomOptions : RAtom → List Char → List (List Char × List Char)
  | .cls c lo hi, s => clsOptions c lo hi s
  | .alt ws, s => altOptions ws s

/-- All ways a sequence of atoms can match a prefix of `s`, in Python's
backtracking preference order (depth-first, greedy). -/
def matchAtoms : List RAtom → List Char → List (List Char × List Char)
  | [], s => [([], s)]
  | a :: as, s =>
    (atomOptions a s).flatMap fun pr =>
      (matchAtoms as pr.2).map fun qr => (pr.1 ++ qr.1, qr.2)

/-- A pattern: atom sequence plus `^` / `$` anchors. (`$` is modelled as
end-of-string; every anchored pattern in the source is applied to single
lines or tokens that contain no trailing newline.) -/
structure RPat where
  atoms : List RAtom
  aStart : Bool := false
  aEnd : Bool := false

/-- Match at the current position, returning the consumed characters of the
preferred match (Python's match at a fixed start position). -/
def matchHere (p : RPat) (s : List Char) : Option (List Char) :=
  let opts := matchAtoms p.atoms s
  let opts := if p.aEnd then opts.filter (fun pr => pr.2.isEmpty) else opts
  opts.head?.map Prod.fst

/-- Leftmost match: try successive start positions (Python `re.search`
without a `^` anchor). -/
def searchFirst (p : RPat) : List Char → Option (List Char)
  | [] => matchHere p []
  | c :: cs =>
    match matchHere p (c :: cs) with
    | some m => some m
    | none => searchFirst p cs

/-- Python `re.search(p, s)`: anchored patterns match only at the start. -/
def reSearch (p : RPat) (s : List Char) : Option (List Char) :=
  if p.aStart then matchHere p s else searchFirst p s

/-- Python `re.match(p, s)`: always anchored at the start. -/
def reMatch (p : RPat) (s : List Char) : Option (List Char) :=
  matchHere p s

/-- Atoms for a literal word. -/
def litA (s : String) : List RAtom :=
  s.data.map fun c => RAtom.cls (.one c) 1 (some 1)

/-- The `\s+` atom. -/
def wsPlus : RAtom := .cls .ws 1 none

/-- Header pattern `W1\s+W2\s+...` from its words. -/
def headerPatOfWords (ws : List String) : RPat :=
  ⟨((ws.map litA).intersperse [wsPlus]).flatten, false, false⟩

/-! ### Concrete patterns from `final_pdf_scraper.py` -/

/-- Source `header_patterns` of `extract_all_table_data` (lines 177-196); the last
four are `^`-anchored. -/
def header_patterns : List RPat :=
  [ headerPatOfWords ["PL", "NAME", "YEAR", "TEAM", "TIME"],
    headerPatOfWords ["PLACE", "NAME", "YEAR", "TEAM", "TIME"],
    headerPatOfWords ["POS", "NAME", "YEAR", "TEAM", "TIME"],
    headerPatOfWords ["RANK", "NAME", "YEAR", "TEAM", "TIME"],
    headerPatOfWords ["PL", "ATHLETE", "YEAR", "TEAM", "TIME"],
    headerPatOfWords ["PLACE", "ATHLETE", "YEAR", "TEAM", "TIME"],
    headerPatOfWords ["PL", "NAME", "TEAM", "TIME"],
    headerPatOfWords ["PLACE", "NAME", "TEAM", "TIME"],
    headerPatOfWords ["POS", "NAME", "TEAM", "TIME"],
    headerPatOfWords ["RANK", "NAME", "TEAM", "TIME"],
    headerPatOfWords ["PL", "ATHLETE", "TEAM", "TIME"],
    headerPatOfWords ["PLACE", "ATHLETE", "TEAM", "TIME"],
    ⟨litA "PL" ++ [wsPlus], true, false⟩,
    ⟨litA "PLACE" ++ [wsPlus], true, false⟩,
    ⟨litA "POS" ++ [wsPlus], true, false⟩,
    ⟨litA "RANK" ++ [wsPlus], true, false⟩ ]

/-- Does an upper-cased stripped line match some header pattern
(the `for pattern in header_patterns: if re.search(...)` check)? -/
def headerLineMatch (lu : List Char) : Bool :=
  header_patterns.any fun p => (reSearch p lu).isSome

/-- Pattern `r'([A-Za-z]+ \d{1,2}-?\d{0,2},? \d{4})'`. -/
def datePat1 : RPat :=
  ⟨[.cls .alpha 1 none, .cls (.one ' ') 1 (some 1), .cls .digit 1 (some 2),
    .cls (.one '-') 0 (some 1), .cls .digit 0 (some 2), .cls (.one ',') 0 (some 1),
    .cls (.one ' ') 1 (some 1), .cls .digit 4 (some 4)], false, false⟩

/-- Pattern `r'([A-Za-z]{3} \d{1,2}-?\d{0,2},? \d{4})'`. -/
def datePat2 : RPat :=
  ⟨[.cls .alpha 3 (some 3), .cls (.one ' ') 1 (some 1), .cls .digit 1 (some 2),
    .cls (.one '-') 0 (some 1), .cls .digit 0 (some 2), .cls (.one ',') 0 (some 1),
    .cls (.one ' ') 1 (some 1), .cls .digit 4 (some 4)], false, false⟩

/-- Pattern `r'(\d{4}-\d{1,2}-\d{1,2})'`. -/
def datePat3 : RPat :=
  ⟨[.cls .digit 4 (some 4), .cls (.one '-') 1 (some 1), .cls .digit 1 (some 2),
    .cls (.one '-') 1 (some 1), .cls .digit 1 (some 2)], false, false⟩

/-- Pattern `r'(\d{1,2}/\d{1,2}/\d{4})'` (listed twice in the source) -/
def datePat4 : RPat :=
  ⟨[.cls .digit 1 (some 2), .cls (.one '/') 1 (some 1), .cls .digit 1 (some 2),
    .cls (.one '/') 1 (some 1), .cls .digit 4 (some 4)], false, false⟩

/-- Source `date_patterns` of `extract_event_date` (lines 135-146), in priority
order; the last entry is a duplicate as in the source. -/
def date_patterns : List RPat :=
  [datePat1, datePat2, datePat3, datePat4, datePat4]

/-- Pattern `r'^(FR|SO|JR|SR|GR)[-]?\d*$'` (academic year codes). -/
def acadPat : RPat :=
  ⟨[.alt ["FR".data, "SO".data, "JR".data, "SR".data, "GR".data],
    .cls (.one '-') 0 (some 1), .cls .digit 0 none], true, true⟩

/-- Pattern `r'\d+[:.]?\d*'`, used with `re.match` on the time token. -/
def timePat : RPat :=
  ⟨[.cls .digit 1 none, .cls .colonDot 0 (some 1), .cls .digit 0 none], true, false⟩

/-- Pattern `r'^[A-Z\s]+$'`, the section-break heuristic pattern. -/
def sectionBreakPat : RPat :=
  ⟨[.cls .upperOrWs 1 none], true, true⟩

/-- Line 233: `re.search(r'^[A-Z\s]+$', data_line) and len(data_line) > 10`. -/
def sectionBreakB (dl : List Char) : Bool :=
  (reSearch sectionBreakPat dl).isSome && decide (10 < dl.length)

/-! ### Text-path record extraction (`extract_all_table_data`) -/

/-- An output record of `final_pdf_scraper.py` (keys
PL, NAME, YEAR, TEAM, TIME, SOURCE_FILE, EVENT_DATE). -/
structure Rec where
  pl : String
  name : String
  year : String
  team : String
  time : String
  source_file : String
  event_date : String
  deriving Repr, DecidableEq

/-- Lines 216-221 and 249-258: a token counting as a year — a 4-digit value
in 2020..2030, or an academic year code (matched on the upper-cased token). -/
def isYearTok (p : List Char) : Bool :=
  (pyIsDigit p && decide (p.length = 4)
    && decide (2020 ≤ natOfDigits p) && decide (natOfDigits p ≤ 2030))
  || (reMatch acadPat (pyUpper p)).isSome

/-- Lines 246-258: first interior token that counts as a year, with its index
inside the interior list (Python's `year_index - 1`). -/
def findYearIdx : List (List Char) → Option (Nat × List Char)
  | [] => none
  | p :: ps =>
    if isYearTok p then some (0, p)
    else (findYearIdx ps).map fun q => (q.1 + 1, q.2)

/-- Source `team_keywords` of the YEAR branch (line 272). -/
def team_keywords_year : List (List Char) :=
  ["University".data, "Universidad".data, "College".data, "UPR".data,
   "P.R.".data, "Caribbean".data, "Interamerican".data, "Politecnica".data,
   "State".data, "Tech".data, "Institute".data, "Jr.".data, "Sr.".data,
   "III".data, "II".data]

/-- Source `team_keywords` of the no-YEAR branch (line 325). -/
def team_keywords_noyear : List (List Char) :=
  ["University".data, "Universidad".data, "College".data, "UPR".data,
   "P.R.".data, "Caribbean".data, "Interamerican".data, "Politecnica".data]

/-- Check `any(keyword in part for keyword in team_keywords)`. -/
def partHasKeyword (kws : List (List Char)) (p : List Char) : Bool :=
  kws.any fun k => hasSub p k

/-- Lines 274-285: accumulate tokens into the name until the first token
containing a team keyword; that token and everything after it is the team.
If no keyword is found the second component is empty. -/
def splitNameTeam (kws : List (List Char)) :
    List (List Char) → List (List Char) × List (List Char)
  | [] => ([], [])
  | p :: ps =>
    if partHasKeyword kws p then ([], p :: ps)
    else
      let r := splitNameTeam kws ps
      (p :: r.1, r.2)

/-- Python `' '.join(parts)`. -/
def joinSp (ps : List (List Char)) : List Char :=
  List.intercalate [' '] ps

/-- Lines 240-311, the `PL NAME YEAR TEAM TIME` row branch, for a row already
split into whitespace-separated `parts` (caller guarantees nothing; the
guards of the source are the final condition). -/
def rowRecordYear (parts : List (List Char)) (sf ed : String) : Option Rec :=
  let place := parts.headD []
  let interior := (parts.drop 1).dropLast
  let yr := findYearIdx interior
  let year := match yr with | some q => q.2 | none => []
  let timePart := parts.getLastD []
  let middle := match yr with | some q => interior.eraseIdx q.1 | none => interior
  let nt := splitNameTeam team_keywords_year middle
  let nt2 := if nt.2.isEmpty && decide (2 ≤ middle.length)
             then (middle.take 2, middle.drop 2) else nt
  let name := joinSp nt2.1
  let team := joinSp nt2.2
  if pyIsDigit place && decide (2 ≤ interior.length)
      && decide (1 < name.length) && decide (1 < team.length)
      && (reMatch timePat timePart).isSome then
    some ⟨String.mk place, String.mk name, String.mk year, String.mk team,
          String.mk timePart, sf, ed⟩
  else none

/-- Lines 313-362, the `PL NAME TEAM TIME` row branch (YEAR is stored as the
empty string). -/
def rowRecordNoYear (parts : List (List Char)) (sf ed : String) : Option Rec :=
  let place := parts.headD []
  let interior := (parts.drop 1).dropLast
  let timePart := parts.getLastD []
  let nt := splitNameTeam team_keywords_noyear interior
  let nt2 := if nt.2.isEmpty && decide (2 ≤ interior.length)
             then (interior.take 2, interior.drop 2) else nt
  let name := joinSp nt2.1
  let team := joinSp nt2.2
  if pyIsDigit place && decide (2 ≤ interior.length)
      && decide (1 < name.length) && decide (1 < team.length)
      && (reMatch timePat timePart).isSome then
    some ⟨String.mk place, String.mk name, String.mk [], String.mk team,
          String.mk timePart, sf, ed⟩
  else none

/-- The `if has_year and len(parts) >= 5: ... elif len(parts) >= 4: ...`
dispatch (lines 240 and 313). -/
def rowRecord (hasYear : Bool) (parts : List (List Char)) (sf ed : String) :
    Option Rec :=
  if hasYear && decide (5 ≤ parts.length) then rowRecordYear parts sf ed
  else if decide (4 ≤ parts.length) then rowRecordNoYear parts sf ed
  else none

/-- Lines 227-364: consume the data rows following a header. Blank lines are
skipped; an all-uppercase line longer than 10 characters stops the scan. -/
def processRows (hasYear : Bool) (sf ed : String) : List (List Char) → List Rec
  | [] => []
  | l :: ls =>
    let dl := pyStrip l
    if dl.isEmpty then processRows hasYear sf ed ls
    else if sectionBreakB dl then []
    else
      match rowRecord hasYear (splitWs dl) sf ed with
      | some r => r :: processRows hasYear sf ed ls
      | none => processRows hasYear sf ed ls

/-- Lines 211-224: one peeked line "contains a year" — at least 4 tokens and
an interior token counting as a year. -/
def lineHasYearTok (l : List Char) : Bool :=
  let ps := splitWs (pyStrip l)
  decide (4 ≤ ps.length) && ((ps.drop 1).dropLast.any isYearTok)

/-- Lines 206-224: the table's year flag — `'YEAR' in line_upper`, otherwise
inferred from the five raw lines `lines[i+1:i+6]` following the header. -/
def tableHasYear (lines : List (List Char)) (i : Nat) (lu : List Char) : Bool :=
  hasSub lu "YEAR".data || ((lines.drop (i + 1)).take 5).any lineHasYearTok

/-- Computes `line.upper().strip()` for line `i` (out-of-range reads give `[]`;
`extract_all_table_data` only uses in-range indices). -/
def lineUpperAt (lines : List (List Char)) (i : Nat) : List Char :=
  pyStrip (pyUpper (lines.getD i []))

/-- The records produced under the header at line `i`: data rows are
`lines[i+1 : min(i+200, len(lines))]`, i.e. up to 199 lines after the header. -/
def tableRecords (lines : List (List Char)) (i : Nat) (sf ed : String) :
    List Rec :=
  let hy := tableHasYear lines i (lineUpperAt lines i)
  processRows hy sf ed ((lines.drop (i + 1)).take 199)

/-- Embeds `extract_all_table_data(text, source_file, event_date)` (lines 171-370).
The `break` at line 365 only leaves the inner pattern loop, so every line
whose upper-cased strip matches a header pattern starts a table extraction. -/
def extract_all_table_data (text sf ed : String) : List Rec :=
  let lines := pySplitNl text.data
  (List.range lines.length).flatMap fun i =>
    if headerLineMatch (lineUpperAt lines i) then tableRecords lines i sf ed
    else []

/-- Worker for `extract_event_date`: try patterns in order, return the first
(leftmost) match of the first pattern that matches, stripped. -/
def eventDateGo : List RPat → List Char → String
  | [], _ => ""
  | p :: ps, t =>
    match reSearch p t with
    | some m => String.mk (pyStrip m)
    | none => eventDateGo ps t

/-- Embeds `extract_event_date(text)` (lines 132-155). -/
def extract_event_date (text : String) : String :=
  eventDateGo date_patterns text.data

/-- Embeds `extract_from_text(text, source_file)` (lines 157-169). -/
def extract_from_text (text sf : String) : List Rec :=
  extract_all_table_data text sf (extract_event_date text)

/-! ### Table-row mapper of `pdf_scraper.py` -/

/-- An output record of `pdf_scraper.py` (keys PL, NAME, TEAM, TIME,
SOURCE_FILE, EVENT_DATE — no YEAR). -/
structure PdfRec where
  pl : String
  name : String
  team : String
  time : String
  source_file : String
  event_date : String
  deriving Repr, DecidableEq

/-- Column indices identified for the target fields (`field_indices`,
lines 96-102 of `pdf_scraper.py`); `none` is Python `None`. -/
structure FieldIdx where
  pl : Option Nat := none
  name : Option Nat := none
  team : Option Nat := none
  time : Option Nat := none
  event_date : Option Nat := none
  deriving Repr, DecidableEq

/-- Python `str(cell).strip() if cell else ''` for a cell that is a string
or `None` (line 143 and line 72 of `pdf_scraper.py`). -/
def cellText (c : Option String) : String :=
  String.mk (pyStrip (c.getD "").data)

/-- Keyword containment on the upper-cased header (`keyword in header_upper`). -/
def headerHasKw (hu : List Char) (kws : List String) : Bool :=
  kws.any fun k => hasSub hu k.data

/-- Embeds `identify_field_columns(headers)` (lines 94-127 of
`pdf_scraper.py`); a later matching header overwrites an earlier index. -/
def identify_field_columns (headers : List String) : FieldIdx :=
  (headers.enum).foldl
    (fun fi iq =>
      let hu := pyUpper iq.2.data
      if headerHasKw hu ["PL", "PLACE", "POS", "POSITION", "RANK", "RANKING"] then
        { fi with pl := some iq.1 }
      else if headerHasKw hu ["NAME", "ATHLETE", "RUNNER", "COMPETITOR"] then
        { fi with name := some iq.1 }
      else if headerHasKw hu ["TEAM", "SCHOOL", "CLUB", "UNIVERSITY", "COLLEGE"] then
        { fi with team := some iq.1 }
      else if headerHasKw hu ["TIME", "RESULT", "FINISH", "MARK", "PERFORMANCE"] then
        { fi with time := some iq.1 }
      else if headerHasKw hu ["DATE", "EVENT DATE", "MEET DATE", "COMPETITION DATE"] then
        { fi with event_date := some iq.1 }
      else fi)
    {}

/-- Python truthiness of an optional column index: `None` and `0` are falsy. -/
def idxTruthy : Option Nat → Bool
  | none => false
  | some n => decide (n ≠ 0)

/-- Check `any(field_indices.values())` (line 77 of `pdf_scraper.py`):
note that a column index of `0` does not count. -/
def fieldIdxAny (fi : FieldIdx) : Bool :=
  [fi.pl, fi.name, fi.team, fi.time, fi.event_date].any idxTruthy

/-- Value stored for one field: the stripped cell text when the column index
exists and is in range, otherwise the `''` default (lines 141-144). -/
def fieldValue (row : List (Option String)) : Option Nat → String
  | none => ""
  | some c => if c < row.length then cellText (row.getD c none) else ""

/-- Embeds `extract_record_from_row(row, field_indices, source_file, ...)`
(lines 129-150 of `pdf_scraper.py`): the record is returned iff at least one
of PL, NAME, TEAM, TIME is non-empty. The unused page/table/row number
arguments are omitted. -/
def extract_record_from_row (row : List (Option String)) (fi : FieldIdx)
    (sf : String) : Option PdfRec :=
  let r : PdfRec :=
    ⟨fieldValue row fi.pl, fieldValue row fi.name, fieldValue row fi.team,
     fieldValue row fi.time, sf, fieldValue row fi.event_date⟩
  if !r.pl.isEmpty || !r.name.isEmpty || !r.team.isEmpty || !r.time.isEmpty then
    some r
  else none

/-- Embeds `process_table(table, source_file, ...)` (lines 66-92 of
`pdf_scraper.py`). Cells are strings or `None`. -/
def process_table (table : List (List (Option String))) (sf : String) :
    List PdfRec :=
  if decide (table.length < 2) then []
  else
    let headers := (table.headD []).map cellText
    let fi := identify_field_columns headers
    if !fieldIdxAny fi then []
    else
      (table.drop 1).filterMap fun row =>
        if row.isEmpty || decide (row.length < headers.length) then none
        else extract_record_from_row row fi sf

/-! ### Combined CSV sink of `tfrrs_scraper.py` -/

/-- Extracted data of one HTML table (`{'headers': ..., 'rows': ...}`). -/
structure TableData where
  headers : List String
  rows : List (List String)
  deriving Repr, DecidableEq

/-- The fixed header row written by `save_combined_csv` (line 140):
`Table_Name,Row_Number,Column_0..Column_19`. -/
def combinedHeader : List String :=
  ["Table_Name", "Row_Number"] ++ (List.range 20).map fun i => "Column_" ++ toString i

/-- Python `enumerate(rows, n)`. -/
def numberRows (n : Nat) : List (List String) → List (Nat × List String)
  | [] => []
  | r :: rs => (n, r) :: numberRows (n + 1) rs

/-- One written data row (lines 148-149): the table name, the row number and
`row + [''] * (20 - len(row))` — a negative multiplier yields no padding. -/
def paddedCombinedRow (nm : String) (rn : Nat) (row : List String) :
    List String :=
  [nm, toString rn] ++ row ++ List.replicate (20 - row.length) ""

/-- Embeds `save_combined_csv(table_data)` (lines 133-156 of
`tfrrs_scraper.py`) as the matrix of CSV rows it writes; `table_data` is the
insertion-ordered dict, modelled as an association list. -/
def save_combined_rows (td : List (String × TableData)) : List (List String) :=
  combinedHeader ::
    td.flatMap fun p =>
      if p.2.rows.isEmpty then []
      else (numberRows 1 p.2.rows).map fun q => paddedCombinedRow p.1 q.1 q.2

/-! ### Exit-status control flow of `final_pdf_scraper.py` -/

/-- Embeds `process_folder` (lines 372-396): `false` when the folder is
missing or holds no PDF files; otherwise every document contributes its
records, a failed document (`none`, its exception being caught) contributes
nothing and processing continues. -/
def process_folder_model (folderExists : Bool)
    (docs : List (Option (List Rec))) : Bool × List Rec :=
  if !folderExists then (false, [])
  else if docs.isEmpty then (false, [])
  else (true, docs.flatMap fun o => o.getD [])

/-- Embeds `save_to_csv` (lines 398-418): `false` when there is nothing to
save or when the write raises; `writeOk` abstracts the file-system write. -/
def save_to_csv_model (data : List Rec) (writeOk : Bool) : Bool :=
  if data.isEmpty then false else writeOk

/-- Embeds the exit status of `main` (lines 440-464): `sys.exit(1)` happens
only when the argument count is wrong; every other path (including a failing
`process_folder` or `save_to_csv`) prints a message and returns normally,
so the interpreter exits with status 0. -/
def main_exit_code (argv : List String) (folderExists : Bool)
    (docs : List (Option (List Rec))) (writeOk : Bool) : Nat :=
  if argv.length ≠ 2 then 1
  else
    let pr := process_folder_model folderExists docs
    if pr.1 then
      if save_to_csv_model pr.2 writeOk then 0 else 0
    else 0

/-! ### Spec-side definition and concrete example inputs -/

/-- Restates the spec's contract for the date extractor in its own words:
return the first (leftmost) match of the first pattern in priority order that
matches anywhere in the text, stripped; empty string when none match. -/
def event_date_spec (text : String) : String :=
  match date_patterns.findSome? (fun p => reSearch p text.data) with
  | some m => String.mk (pyStrip m)
  | none => ""

/-- A document text containing two header lines, each followed by one data
row. -/
def twoHeaderText : String :=
  "PL NAME TEAM TIME\n1 John Smith University 12.34\nPL NAME TEAM TIME\n2 Jane Doe College 13.45"

/-- A document whose header is followed by five blank lines and then a data
line carrying an academic-year token. -/
def blankWindowText : String :=
  "PL NAME TEAM TIME\n\n\n\n\n\n1 John Smith SR University 12.34"

/-- The line list of `blankWindowText`. -/
def blankWindowLines : List (List Char) :=
  pySplitNl blankWindowText.data

/-- An HTML table row with 21 cells. -/
def wideRow : List String :=
  List.replicate 21 "x"

end PdfScrapper

namespace PdfScrapper

/-! ### Theorems -/

/-- C3: for the header `"PL NAME YEAR TEAM TIME"` followed by the data line
`"3 Maria Rivera SR Caribbean University 12.34"`, the text-path extractor
emits exactly one record, with PL `"3"`, NAME `"Maria Rivera"`, YEAR `"SR"`,
TEAM `"Caribbean University"` and TIME `"12.34"`. -/
theorem c3_maria_rivera_row :
    extract_all_table_data
        "PL NAME YEAR TEAM TIME\n3 Maria Rivera SR Caribbean University 12.34"
        "f.pdf" "" =
      [⟨"3", "Maria Rivera", "SR", "Caribbean University", "12.34", "f.pdf", ""⟩] := by
  decide

/-- C7: the text-path extractor is a pure function of the input text and the
source-file name, so two runs on identical input produce identical ordered
record sequences. -/
theorem c7_deterministic (text sf : String) :
    extract_from_text text sf = extract_from_text text sf :=
  rfl

/-- C2 counterexample: on `twoHeaderText` the extractor does NOT stop after
the first header position — line 2 (the second header) also matches a header
pattern, its table scan yields the `"2 Jane Doe ..."` record, and the overall
output contains records from both headers. -/
theorem c2_counterexample :
    extract_all_table_data twoHeaderText "f.pdf" "" =
      [⟨"1", "John Smith", "", "University", "12.34", "f.pdf", ""⟩,
       ⟨"2", "Jane Doe", "", "College", "13.45", "f.pdf", ""⟩] ∧
    headerLineMatch (lineUpperAt (pySplitNl twoHeaderText.data) 2) = true ∧
    tableRecords (pySplitNl twoHeaderText.data) 2 "f.pdf" "" =
      [⟨"2", "Jane Doe", "", "College", "13.45", "f.pdf", ""⟩] :=
  ⟨by decide, by decide, by decide⟩

/-- C6 counterexample: in `blankWindowText` the header lacks YEAR, the five
raw lines after the header are blank, and the first non-empty following line
(line 6) has an interior academic-year token — yet the year flag is `false`,
because the peek window `lines[i+1:i+6]` counts blank lines; consequently the
emitted record stores YEAR `""` and the token `SR` is swallowed into NAME. -/
theorem c6_counterexample :
    tableHasYear blankWindowLines 0 (lineUpperAt blankWindowLines 0) = false ∧
    hasSub (lineUpperAt blankWindowLines 0) "YEAR".data = false ∧
    ((blankWindowLines.drop 1).take 5).all List.isEmpty = true ∧
    lineHasYearTok (blankWindowLines.getD 6 []) = true ∧
    extract_all_table_data blankWindowText "f.pdf" "" =
      [⟨"1", "John Smith SR", "", "University", "12.34", "f.pdf", ""⟩] :=
  ⟨by decide, by decide, by decide, by decide, by decide⟩

/-- C8 counterexample: a 21-cell row is written untruncated by the combined
sink — the written data row has 23 entries while the header row has 22. -/
theorem c8_counterexample :
    (save_combined_rows [("t", ⟨[], [wideRow]⟩)]).getD 1 [] =
      ["t", "1"] ++ wideRow ∧
    (("t" :: "1" :: wideRow).length = 23) ∧
    combinedHeader.length = 22 :=
  ⟨by decide, by decide, by decide⟩

/-- C9 counterexample: with a missing folder (and likewise with a failing
CSV write) `main` prints a message and returns, so the process exit status
is 0, not non-zero as claimed. -/
theorem c9_counterexample :
    main_exit_code ["final_pdf_scraper.py", "page 1-3"] false [] true = 0 ∧
    main_exit_code ["final_pdf_scraper.py", "page 1-3"] true
        [some [⟨"1", "Ana Cruz", "", "College", "10.5", "a.pdf", ""⟩]] false = 0 :=
  ⟨rfl, rfl⟩

/-- The pattern loop of `extract_event_date` agrees with "first match of the
first matching pattern" phrased through `List.findSome?`. -/
theorem eventDateGo_eq_findSome (ps : List RPat) (t : List Char) :
    eventDateGo ps t =
      match ps.findSome? (fun p => reSearch p t) with
      | some m => String.mk (pyStrip m)
      | none => "" := by
  induction ps with
  | nil => rfl
  | cons p ps ih =>
    rw [List.findSome?_cons]
    cases hp : reSearch p t with
    | none => simpa [eventDateGo, hp] using ih
    | some m => simp [eventDateGo, hp]

/-- C4: the event-date extractor tries the date patterns in priority order
and returns the first match of the first pattern matching anywhere in the
text (the `event_date_spec` contract); it returns `""` when no pattern
matches anything, in particular on text with no date-like substring, and it
returns `"February 23, 2024"` on text containing
`"...on February 23, 2024 at..."`. -/
theorem c4_event_date :
    (∀ t : String, extract_event_date t = event_date_spec t) ∧
    (∀ t : String,
      (date_patterns.all fun p => (reSearch p t.data).isNone) = true →
        extract_event_date t = "") ∧
    extract_event_date "no date-like content here" = "" ∧
    extract_event_date "...on February 23, 2024 at..." = "February 23, 2024" := by
  refine ⟨fun t => eventDateGo_eq_findSome _ _, ?_, by decide, by decide⟩
  intro t h
  unfold extract_event_date
  rw [eventDateGo_eq_findSome]
  have hnone : date_patterns.findSome? (fun p => reSearch p t.data) = none := by
    rw [List.findSome?_eq_none_iff]
    intro p hp
    exact Option.isNone_iff_eq_none.mp (List.all_eq_true.mp h p hp)
  rw [hnone]

/-- C4 witness: instantiating the none-match clause at a concrete text. -/
theorem c4_event_date_witness : extract_event_date "abc" = "" :=
  c4_event_date.2.1 "abc" (by decide)

/-- C5: a data row whose stripped text matches `^[A-Z\s]+$` and is longer
than 10 characters stops row consumption: no record is emitted for it nor
for any later line of that table scan. -/
theorem c5_section_break_stops (hy : Bool) (sf ed : String) (l : List Char)
    (ls : List (List Char)) (h : sectionBreakB (pyStrip l) = true) :
    processRows hy sf ed (l :: ls) = [] := by
  have hlen : 10 < (pyStrip l).length := by
    have h' := h
    simp only [sectionBreakB, Bool.and_eq_true, decide_eq_true_eq] at h'
    exact h'.2
  have hne : (pyStrip l).isEmpty = false := by
    cases hl : pyStrip l with
    | nil => rw [hl] at hlen; simp at hlen
    | cons a as => rfl
  simp [processRows, hne, h]

/-- C5 witness: a concrete all-uppercase 18-character line mid-table stops
the scan before a perfectly good data row. -/
theorem c5_section_break_stops_witness :
    processRows false "f.pdf" ""
      ["FINAL RESULTS HEAT".data, "1 Ana Li College 11.2".data] = [] :=
  c5_section_break_stops false "f.pdf" "" "FINAL RESULTS HEAT".data
    ["1 Ana Li College 11.2".data] (by decide)

/-- C2 amended: the `break` after a matched header only ends the pattern
loop for that line; the line scan goes on, so every line matching a header
pattern contributes its own table records to the output — not only the first
header position. -/
theorem c2_later_headers_extract (text sf ed : String) (i : Nat) (r : Rec)
    (hm : headerLineMatch (lineUpperAt (pySplitNl text.data) i) = true)
    (hi : i < (pySplitNl text.data).length)
    (hr : r ∈ tableRecords (pySplitNl text.data) i sf ed) :
    r ∈ extract_all_table_data text sf ed := by
  have : r ∈ (List.range (pySplitNl text.data).length).flatMap
      (fun j => if headerLineMatch (lineUpperAt (pySplitNl text.data) j) then
        tableRecords (pySplitNl text.data) j sf ed else []) := by
    refine List.mem_flatMap.mpr ⟨i, List.mem_range.mpr hi, ?_⟩
    rw [if_pos hm]
    exact hr
  exact this

/-- C2 witness: a record produced under the header at line 2 of a two-table
document is in the extractor's output. -/
theorem c2_later_headers_extract_witness :
    (⟨"2", "Al Po", "", "College", "12.0", "w.pdf", ""⟩ : Rec) ∈
      extract_all_table_data
        "PL NAME TEAM TIME\n1 Li Wu UPR 11.0\nPL NAME TEAM TIME\n2 Al Po College 12.0"
        "w.pdf" "" :=
  c2_later_headers_extract
    "PL NAME TEAM TIME\n1 Li Wu UPR 11.0\nPL NAME TEAM TIME\n2 Al Po College 12.0"
    "w.pdf" "" 2 ⟨"2", "Al Po", "", "College", "12.0", "w.pdf", ""⟩
    (by decide) (by decide) (by decide)

/-- C6 amended: for a header without the YEAR keyword, the year flag is true
iff one of the five RAW lines immediately following the header (blank lines
count against the window) has at least 4 whitespace-separated tokens and an
interior token that is a 4-digit year in 2020..2030 or an academic-year
code. -/
theorem c6_year_flag_window (lines : List (List Char)) (i : Nat)
    (lu : List Char) (h : hasSub lu "YEAR".data = false) :
    (tableHasYear lines i lu = true ↔
      ∃ l ∈ (lines.drop (i + 1)).take 5,
        4 ≤ (splitWs (pyStrip l)).length ∧
        ∃ p ∈ ((splitWs (pyStrip l)).drop 1).dropLast, isYearTok p = true) := by
  simp [tableHasYear, h, lineHasYearTok, List.any_eq_true]

/-- C6 witness: the flag is inferred true from a data line carrying `SR`
directly below the header. -/
theorem c6_year_flag_window_witness :
    tableHasYear ["PL NAME TEAM TIME".data, "1 Ana Cruz SR College 10.5".data] 0
      (lineUpperAt ["PL NAME TEAM TIME".data, "1 Ana Cruz SR College 10.5".data] 0)
      = true :=
  (c6_year_flag_window
      ["PL NAME TEAM TIME".data, "1 Ana Cruz SR College 10.5".data] 0
      (lineUpperAt ["PL NAME TEAM TIME".data, "1 Ana Cruz SR College 10.5".data] 0)
      (by decide)).mpr
    ⟨"1 Ana Cruz SR College 10.5".data, by decide, by decide,
     "SR".data, by decide, by decide⟩

/-- C9 amended: only a wrong command-line argument count exits non-zero; a
missing folder, an empty folder or a write failure are reported through a
`False` return and a printed message while the process still exits 0, and
per-document failures are contained — the remaining documents' records are
still collected and `process_folder` still returns `True`. -/
theorem c9_exit_code_amended :
    (∀ (argv : List String) (fe : Bool) (docs : List (Option (List Rec)))
       (wok : Bool), argv.length = 2 → main_exit_code argv fe docs wok = 0) ∧
    (∀ (argv : List String) (fe : Bool) (docs : List (Option (List Rec)))
       (wok : Bool), argv.length ≠ 2 → main_exit_code argv fe docs wok = 1) ∧
    (∀ docs : List (Option (List Rec)), docs ≠ [] →
      (process_folder_model true docs).1 = true ∧
      (process_folder_model true docs).2 = docs.flatMap fun o => o.getD []) := by
  refine ⟨?_, ?_, ?_⟩
  · intro argv fe docs wok h
    simp only [main_exit_code, h]
    rw [if_neg (by omega : ¬(2 ≠ 2))]
    split
    · split <;> rfl
    · rfl
  · intro argv fe docs wok h
    simp [main_exit_code, h]
  · intro docs h
    cases docs with
    | nil => exact absurd rfl h
    | cons d ds => exact ⟨rfl, rfl⟩

/-- C9 witness: a well-formed invocation with one failing and one succeeding
document exits 0, and a wrong argument count exits 1. -/
theorem c9_exit_code_amended_witness :
    main_exit_code ["final_pdf_scraper.py", "docs"] true
      [none, some [⟨"1", "Ana Cruz", "", "College", "10.5", "a.pdf", ""⟩]]
      true = 0 ∧
    main_exit_code ["final_pdf_scraper.py"] true [] true = 1 :=
  ⟨c9_exit_code_amended.1 ["final_pdf_scraper.py", "docs"] true
      [none, some [⟨"1", "Ana Cruz", "", "College", "10.5", "a.pdf", ""⟩]]
      true (by decide),
   c9_exit_code_amended.2.1 ["final_pdf_scraper.py"] true [] true (by decide)⟩

/-- C1 counterexample: the table-row mapper of `pdf_scraper.py` returns (and
`process_table` appends) a record whose place, name and team are all empty
and whose time field does not match the numeric pattern — only one of the
four fields needs to be non-empty. -/
theorem c1_counterexample :
    process_table [[some "X", some "TIME"], [some "q", some "DNF"]] "f.pdf" =
      [⟨"", "", "", "DNF", "f.pdf", ""⟩] ∧
    (reMatch timePat "DNF".data).isSome = false :=
  ⟨by decide, by decide⟩

/-- A non-empty character list builds a non-empty string. -/
theorem mk_ne_empty {l : List Char} (h : l ≠ []) : String.mk l ≠ "" :=
  fun he => h (congrArg String.data he)

/-- Strings whose `isEmpty` is `false` differ from `""`. -/
theorem isEmpty_false_ne {s : String} (h : s.isEmpty = false) : s ≠ "" :=
  fun he => by rw [he] at h; exact absurd h (by decide)

/-- The token found by `findYearIdx` satisfies `isYearTok`. -/
theorem findYearIdx_isYearTok {l : List (List Char)} {q : Nat × List Char}
    (h : findYearIdx l = some q) : isYearTok q.2 = true := by
  induction l generalizing q with
  | nil => cases h
  | cons p ps ih =>
    unfold findYearIdx at h
    split at h
    case isTrue hp =>
      rw [Option.some.injEq] at h
      subst h
      exact hp
    case isFalse hp =>
      rw [Option.map_eq_some'] at h
      obtain ⟨a, ha, rfl⟩ := h
      have := ih ha
      exact this

/-- Field facts shared by both guarded row-record builders: any record that
passes the final guard has a digit place, a name and team of length greater
than 1 and a time matching the numeric pattern; the year is whatever the
caller proves about it. -/
theorem recOf_fields {g2 : Bool} {place nm tm timePart yr : List Char}
    {sf ed : String} {r : Rec}
    (h : (if pyIsDigit place && g2 && decide (1 < nm.length)
            && decide (1 < tm.length) && (reMatch timePat timePart).isSome then
          some (⟨String.mk place, String.mk nm, String.mk yr,
                 String.mk tm, String.mk timePart, sf, ed⟩ : Rec)
          else none) = some r)
    (hyear : yr = [] ∨ isYearTok yr = true) :
    r.pl ≠ "" ∧ 1 < r.name.length ∧ 1 < r.team.length ∧
      (reMatch timePat r.time.data).isSome = true ∧
      (r.year = "" ∨ isYearTok r.year.data = true) := by
  split at h
  case isTrue hc =>
    rw [Option.some.injEq] at h
    subst h
    simp only [Bool.and_eq_true, decide_eq_true_eq] at hc
    obtain ⟨⟨⟨⟨h1, _⟩, h3⟩, h4⟩, h5⟩ := hc
    refine ⟨mk_ne_empty fun he => by rw [he] at h1; exact absurd h1 (by decide),
      h3, h4, h5, ?_⟩
    rcases hyear with hy | hy
    · left; rw [hy]
    · right; exact hy
  case isFalse => cases h

/-- Records produced by the YEAR row branch have the guarded field shape. -/
theorem rowRecordYear_fields {parts : List (List Char)} {sf ed : String}
    {r : Rec} (h : rowRecordYear parts sf ed = some r) :
    r.pl ≠ "" ∧ 1 < r.name.length ∧ 1 < r.team.length ∧
      (reMatch timePat r.time.data).isSome = true ∧
      (r.year = "" ∨ isYearTok r.year.data = true) := by
  have hyear : (match findYearIdx ((parts.drop 1).dropLast) with
      | some q => q.2 | none => ([] : List Char)) = [] ∨
      isYearTok (match findYearIdx ((parts.drop 1).dropLast) with
      | some q => q.2 | none => []) = true := by
    rcases hfy : findYearIdx ((parts.drop 1).dropLast) with _ | q
    · left; rfl
    · right; exact findYearIdx_isYearTok hfy
  exact recOf_fields h hyear

/-- Records produced by the no-YEAR row branch have the guarded field shape
(and an empty year). -/
theorem rowRecordNoYear_fields {parts : List (List Char)} {sf ed : String}
    {r : Rec} (h : rowRecordNoYear parts sf ed = some r) :
    r.pl ≠ "" ∧ 1 < r.name.length ∧ 1 < r.team.length ∧
      (reMatch timePat r.time.data).isSome = true ∧
      (r.year = "" ∨ isYearTok r.year.data = true) :=
  recOf_fields h (Or.inl rfl)

/-- Records produced by the row dispatch have the guarded field shape. -/
theorem rowRecord_fields {hy : Bool} {parts : List (List Char)} {sf ed : String}
    {r : Rec} (h : rowRecord hy parts sf ed = some r) :
    r.pl ≠ "" ∧ 1 < r.name.length ∧ 1 < r.team.length ∧
      (reMatch timePat r.time.data).isSome = true ∧
      (r.year = "" ∨ isYearTok r.year.data = true) := by
  unfold rowRecord at h
  split at h
  · exact rowRecordYear_fields h
  · split at h
    · exact rowRecordNoYear_fields h
    · cases h

/-- Every record in a row scan comes from some row accepted by `rowRecord`. -/
theorem processRows_mem {hy : Bool} {sf ed : String} {ls : List (List Char)}
    {r : Rec} (h : r ∈ processRows hy sf ed ls) :
    ∃ parts, rowRecord hy parts sf ed = some r := by
  induction ls with
  | nil => simp [processRows] at h
  | cons l ls ih =>
    simp only [processRows] at h
    split at h
    · exact ih h
    · split at h
      · simp at h
      · split at h
        next r' heq =>
          rcases List.mem_cons.mp h with rfl | htail
          · exact ⟨_, heq⟩
          · exact ih htail
        next heq => exact ih h

/-- Every record of the text-path extractor comes from some accepted row. -/
theorem extract_mem {text sf ed : String} {r : Rec}
    (h : r ∈ extract_all_table_data text sf ed) :
    ∃ hy parts, rowRecord hy parts sf ed = some r := by
  have h' : r ∈ (List.range (pySplitNl text.data).length).flatMap
      (fun j => if headerLineMatch (lineUpperAt (pySplitNl text.data) j) then
        tableRecords (pySplitNl text.data) j sf ed else []) := h
  rw [List.mem_flatMap] at h'
  obtain ⟨i, _, hi⟩ := h'
  split at hi
  · simp only [tableRecords] at hi
    obtain ⟨parts, hp⟩ := processRows_mem hi
    exact ⟨_, parts, hp⟩
  · simp at hi

/-- C1 amended: every record emitted by the text-path row extractor has
non-empty place, name and team (name and team even have length over 1) and a
time matching the numeric pattern; records returned by the table-row mapper
of `pdf_scraper.py` only guarantee that at least one of place, name, team or
time is non-empty. -/
theorem c1_record_fields_amended :
    (∀ (text sf ed : String) (r : Rec), r ∈ extract_all_table_data text sf ed →
       r.pl ≠ "" ∧ 1 < r.name.length ∧ 1 < r.team.length ∧
       (reMatch timePat r.time.data).isSome = true) ∧
    (∀ (row : List (Option String)) (fi : FieldIdx) (sf : String) (r : PdfRec),
       extract_record_from_row row fi sf = some r →
       (r.pl ≠ "" ∨ r.name ≠ "" ∨ r.team ≠ "" ∨ r.time ≠ "")) := by
  constructor
  · intro text sf ed r h
    obtain ⟨hy, parts, hp⟩ := extract_mem h
    obtain ⟨h1, h2, h3, h4, _⟩ := rowRecord_fields hp
    exact ⟨h1, h2, h3, h4⟩
  · intro row fi sf r h
    simp only [extract_record_from_row] at h
    split at h
    case isTrue hc =>
      rw [Option.some.injEq] at h
      subst h
      simp only [Bool.or_eq_true, Bool.not_eq_true'] at hc
      rcases hc with ((hc | hc) | hc) | hc
      · exact Or.inl (isEmpty_false_ne hc)
      · exact Or.inr (Or.inl (isEmpty_false_ne hc))
      · exact Or.inr (Or.inr (Or.inl (isEmpty_false_ne hc)))
      · exact Or.inr (Or.inr (Or.inr (isEmpty_false_ne hc)))
    case isFalse => cases h

/-- C1 witness: both conjuncts instantiated on concrete inputs — a record
the text path emits for `"1 Ana Cruz College 10.5"`, and a mapper record
whose only non-empty field is the place. -/
theorem c1_record_fields_amended_witness :
    ((⟨"1", "Ana Cruz", "", "College", "10.5", "w1.pdf", ""⟩ : Rec).pl ≠ "" ∧
     1 < (⟨"1", "Ana Cruz", "", "College", "10.5", "w1.pdf", ""⟩ : Rec).name.length ∧
     1 < (⟨"1", "Ana Cruz", "", "College", "10.5", "w1.pdf", ""⟩ : Rec).team.length ∧
     (reMatch timePat
       (⟨"1", "Ana Cruz", "", "College", "10.5", "w1.pdf", ""⟩ : Rec).time.data).isSome = true) ∧
    ((⟨"9", "", "", "", "w.pdf", ""⟩ : PdfRec).pl ≠ "" ∨
     (⟨"9", "", "", "", "w.pdf", ""⟩ : PdfRec).name ≠ "" ∨
     (⟨"9", "", "", "", "w.pdf", ""⟩ : PdfRec).team ≠ "" ∨
     (⟨"9", "", "", "", "w.pdf", ""⟩ : PdfRec).time ≠ "") :=
  ⟨c1_record_fields_amended.1 "PL NAME TEAM TIME\n1 Ana Cruz College 10.5" "w1.pdf" ""
      ⟨"1", "Ana Cruz", "", "College", "10.5", "w1.pdf", ""⟩ (by decide),
   c1_record_fields_amended.2 [some "9"] ⟨some 0, none, none, none, none⟩ "w.pdf"
      ⟨"9", "", "", "", "w.pdf", ""⟩ (by decide)⟩

/-- C10: the YEAR field of every record emitted by the text-path extractor
is either empty or a token accepted by the year test — a 4-digit value in
2020..2030 or an academic-year code; in particular a 4-digit year outside
that range, such as `"1999"`, is never stored. -/
theorem c10_year_invariant (text sf ed : String) (r : Rec)
    (h : r ∈ extract_all_table_data text sf ed) :
    (r.year = "" ∨ isYearTok r.year.data = true) ∧ r.year ≠ "1999" := by
  obtain ⟨hy, parts, hp⟩ := extract_mem h
  obtain ⟨_, _, _, _, h5⟩ := rowRecord_fields hp
  refine ⟨h5, ?_⟩
  intro h99
  rcases h5 with h0 | h1
  · rw [h99] at h0; exact absurd h0 (by decide)
  · rw [h99] at h1; exact absurd h1 (by decide)

/-- C10 witness: the invariant instantiated on the record extracted from
`"1 Bob Lee SO-2 UPR 9.87"`. -/
theorem c10_year_invariant_witness :
    ((⟨"1", "Bob Lee", "SO-2", "UPR", "9.87", "w2.pdf", ""⟩ : Rec).year = "" ∨
      isYearTok (⟨"1", "Bob Lee", "SO-2", "UPR", "9.87", "w2.pdf", ""⟩ : Rec).year.data = true) ∧
    (⟨"1", "Bob Lee", "SO-2", "UPR", "9.87", "w2.pdf", ""⟩ : Rec).year ≠ "1999" :=
  c10_year_invariant "PL NAME YEAR TEAM TIME\n1 Bob Lee SO-2 UPR 9.87" "w2.pdf" ""
    ⟨"1", "Bob Lee", "SO-2", "UPR", "9.87", "w2.pdf", ""⟩ (by decide)

/-- Row numbering keeps the numbered row a member of the original list. -/
theorem mem_numberRows {n : Nat} {l : List (List String)} {q : Nat × List String}
    (h : q ∈ numberRows n l) : q.2 ∈ l := by
  induction l generalizing n with
  | nil => cases h
  | cons x xs ih =>
    simp only [numberRows] at h
    rcases List.mem_cons.mp h with rfl | h
    · exact List.mem_cons_self _ _
    · exact List.mem_cons_of_mem _ (ih h)

/-- C8 amended: the combined sink starts with the fixed 22-column header
row, and every written data row is the table name, the row number and the
source row padded with empty strings up to 20 columns — rows with more than
20 cells are written unchanged, so a written row has `2 + max 20 n` entries
for a source row of `n` cells (truncation never happens). -/
theorem c8_combined_amended (td : List (String × TableData)) :
    (save_combined_rows td).head? = some combinedHeader ∧
    ∀ r ∈ (save_combined_rows td).tail,
      ∃ nm d rn row, (nm, d) ∈ td ∧ row ∈ d.rows ∧
        r = paddedCombinedRow nm rn row ∧
        r.length = 2 + max 20 row.length := by
  constructor
  · rfl
  · intro r hr
    simp only [save_combined_rows, List.tail_cons] at hr
    rw [List.mem_flatMap] at hr
    obtain ⟨p, hp, hr⟩ := hr
    split at hr
    · simp at hr
    · rw [List.mem_map] at hr
      obtain ⟨q, hq, rfl⟩ := hr
      refine ⟨p.1, p.2, q.1, q.2, hp, mem_numberRows hq, rfl, ?_⟩
      simp only [paddedCombinedRow, List.length_append, List.length_cons,
        List.length_nil, List.length_replicate]
      omega

/-- C8 witness: the single data row written for a one-cell source row. -/
theorem c8_combined_amended_witness :
    ∃ nm d rn row,
      (nm, d) ∈ [("a", (⟨[], [["x"]]⟩ : TableData))] ∧ row ∈ d.rows ∧
      (["a", "1", "x"] ++ List.replicate 17 "" ++ ["", ""] : List String) =
        paddedCombinedRow nm rn row ∧
      (["a", "1", "x"] ++ List.replicate 17 "" ++ ["", ""] : List String).length =
        2 + max 20 row.length :=
  (c8_combined_amended [("a", ⟨[], [["x"]]⟩)]).2
    (["a", "1", "x"] ++ List.replicate 17 "" ++ ["", ""]) (by decide)

end PdfScrapper
